import Mathlib

/-!
# Reply construction and rendering (`irc/reply.go`)

A shallow embedding of `irc/reply.go`: the two reply shapes (`StringReply`,
`NumericReply`), their `Format` methods and the catalog of `Rpl*` / `Err*`
constructors, together with the part of Go's `fmt.Sprintf` and `strings.Join`
that the file calls.

Go strings are represented by Lean strings (sequences of code points); every
byte that `fmt` inspects while scanning a template is ASCII, so scanning code
points agrees with scanning bytes.
-/

namespace Irc

/-! ## `fmt.Sprintf` -/

/-- An operand passed to `Sprintf` through `args ...interface{}`. `reply.go`
passes Go `string` and `int` values only. -/
inductive Arg where
  | str (s : String)
  | int (n : Int)
deriving DecidableEq, Repr

/-- The per-directive state of `fmt.fmt`: the flag bits of `fmtFlags` with the
parsed width and precision. -/
structure Fmt where
  widPresent : Bool := false
  precPresent : Bool := false
  minus : Bool := false
  plus : Bool := false
  sharp : Bool := false
  space : Bool := false
  zero : Bool := false
  wid : Nat := 0
  prec : Nat := 0
deriving DecidableEq, Repr

/-- Renderings that `fmt` gives to operand and verb pairs other than a string
under `%s` and an int under `%d` (quoting, radix and `%v` verbs, bad-verb
reports). No template of `reply.go` uses them; they are left abstract, and
every result below holds whatever they are. -/
class FmtOther where
  printArg : Fmt → Arg → Char → List Char

/-- The `fmt.writePadding` method: `n` padding characters, zeros only when
padding to the left with the zero flag set. -/
def writePadding (f : Fmt) (n : Int) : List Char :=
  List.replicate n.toNat (if f.zero && !f.minus then '0' else ' ')

/-- The `fmt.padString` / `fmt.pad` methods. -/
def pad (f : Fmt) (s : List Char) : List Char :=
  if !f.widPresent || f.wid == 0 then s
  else
    let width : Int := (f.wid : Int) - (s.length : Int)
    if !f.minus then writePadding f width ++ s
    else s ++ writePadding f width

/-- The `fmt.truncateString` method. -/
def truncateString (f : Fmt) (s : List Char) : List Char :=
  if f.precPresent then s.take f.prec else s

/-- The `fmt.fmtS` method. -/
def fmtS (f : Fmt) (s : List Char) : List Char :=
  pad f (truncateString f s)

/-- The base-10 digit loop of `fmt.fmtInteger`, most significant digit first.
The first argument bounds the number of iterations. -/
def decimalLoop : Nat → Nat → List Char → List Char
  | 0, _, acc => acc
  | fuel + 1, u, acc =>
    if 10 ≤ u then decimalLoop fuel (u / 10) (Nat.digitChar (u % 10) :: acc)
    else Nat.digitChar u :: acc

/-- Decimal digits of `u`. -/
def decimal (u : Nat) : List Char :=
  decimalLoop (u + 1) u []

/-- The `fmt.fmtInteger` method for a signed operand in base 10. -/
def fmtInteger (f : Fmt) (n : Int) : List Char :=
  let negative := decide (n < 0)
  let u := n.natAbs
  if f.precPresent && f.prec == 0 && u == 0 then
    writePadding { f with zero := false } f.wid
  else
    let prec : Int :=
      if f.precPresent then (f.prec : Int)
      else if f.zero && !f.minus && f.widPresent then
        (f.wid : Int) - (if negative || f.plus || f.space then 1 else 0)
      else 0
    let digits := decimal u
    let digits := List.replicate (prec - (digits.length : Int)).toNat '0' ++ digits
    let signed :=
      if negative then '-' :: digits
      else if f.plus then '+' :: digits
      else if f.space then ' ' :: digits
      else digits
    pad { f with zero := false } signed

/-- The `pp.printArg` method. -/
def printArg [FmtOther] (f : Fmt) (arg : Arg) (verb : Char) : List Char :=
  match arg with
  | .str s => if verb = 's' then fmtS f s.data else FmtOther.printArg f arg verb
  | .int n => if verb = 'd' then fmtInteger f n else FmtOther.printArg f arg verb

/-- The `tooLarge` helper of `fmt`. -/
def tooLarge (x : Int) : Bool :=
  decide (x > 1000000) || decide (x < -1000000)

/-- The digit loop of `parsenum`. -/
def parsenumLoop : List Char → Nat → Bool → Nat × Bool × List Char
  | [], num, isnum => (num, isnum, [])
  | c :: cs, num, isnum =>
    if '0'.toNat ≤ c.toNat ∧ c.toNat ≤ '9'.toNat then
      if tooLarge num then (0, false, [])
      else parsenumLoop cs (num * 10 + (c.toNat - '0'.toNat)) true
    else (num, isnum, c :: cs)

/-- The `parsenum` helper: the number read, whether one was read, and the
unread text. -/
def parsenum (s : List Char) : Nat × Bool × List Char :=
  parsenumLoop s 0 false

/-- Length in bytes of the UTF-8 encoding. -/
def byteLen (s : List Char) : Nat :=
  (s.map Char.utf8Size).sum

/-- The `parseArgNumber` helper, applied to text that starts with `[`: the
zero-based index, the text after the bracketed part, and success. -/
def parseArgNumber (format : List Char) : Int × List Char × Bool :=
  if byteLen format < 3 then (0, format.drop 1, false)
  else
    let body := (format.drop 1).takeWhile (fun c => c ≠ ']')
    match (format.drop 1).dropWhile (fun c => c ≠ ']') with
    | [] => (0, format.drop 1, false)
    | _ :: rest =>
      match parsenum body with
      | (width, ok, unread) =>
        if !ok || !unread.isEmpty then (0, rest, false)
        else ((width : Int) - 1, rest, true)

/-- Scanner state of `doPrintf` that survives a directive or is local to one:
next operand, `reordered`, `goodArgNum`, `afterIndex`. -/
structure Scan where
  argNum : Nat
  reordered : Bool
  goodArgNum : Bool := true
  afterIndex : Bool := false
deriving DecidableEq, Repr

/-- The `pp.argNumber` method. -/
def argNumber (st : Scan) (format : List Char) (numArgs : Nat) : Scan × List Char :=
  match format with
  | '[' :: _ =>
    match parseArgNumber format with
    | (index, rest, ok) =>
      if ok && decide (0 ≤ index) && decide (index < (numArgs : Int)) then
        ({ st with argNum := index.toNat, reordered := true, afterIndex := true }, rest)
      else
        ({ st with reordered := true, goodArgNum := false, afterIndex := ok }, rest)
  | _ => ({ st with afterIndex := false }, format)

/-- The `intFromArg` helper. -/
def intFromArg (a : List Arg) (argNum : Nat) : Int × Bool × Nat :=
  match a.get? argNum with
  | none => (0, false, argNum)
  | some (.int n) => if tooLarge n then (0, false, argNum + 1) else (n, true, argNum + 1)
  | some (.str _) => (0, false, argNum + 1)

/-- The flag loop of `doPrintf`. -/
def scanFlags : List Char → Fmt → Fmt × List Char
  | [], f => (f, [])
  | c :: cs, f =>
    if c = '#' then scanFlags cs { f with sharp := true }
    else if c = '0' then scanFlags cs { f with zero := true }
    else if c = '+' then scanFlags cs { f with plus := true }
    else if c = '-' then scanFlags cs { f with minus := true }
    else if c = ' ' then scanFlags cs { f with space := true }
    else (f, c :: cs)

/-- Type names `reflect.TypeOf(arg).String()`. -/
def Arg.typeName : Arg → List Char
  | .str _ => "string".data
  | .int _ => "int".data

/-- Operand printed by verb `v` with all flags cleared. -/
def Arg.plainV : Arg → List Char
  | .str s => fmtS {} s.data
  | .int n => fmtInteger {} n

/-- The tail of `doPrintf`: the report of operands left over. -/
def extraArgs (a : List Arg) (st : Scan) : List Char :=
  if !st.reordered && decide (st.argNum < a.length) then
    "%!(EXTRA ".data ++
      ", ".data.intercalate ((a.drop st.argNum).map fun arg =>
        arg.typeName ++ '=' :: arg.plainV) ++ [')']
  else []

/-- Width part of a directive: output written, state, flags, unread text. -/
def scanWidth (a : List Arg) (st : Scan) (f : Fmt) (format : List Char) :
    List Char × Scan × Fmt × List Char :=
  match format with
  | '*' :: rest =>
    match intFromArg a st.argNum with
    | (wid, widPresent, argNum) =>
      let out := if !widPresent then "%!(BADWIDTH)".data else []
      let f := { f with wid := wid.natAbs, widPresent := widPresent }
      let f := if wid < 0 then { f with minus := true, zero := false } else f
      (out, { st with argNum := argNum, afterIndex := false }, f, rest)
  | _ =>
    match parsenum format with
    | (wid, widPresent, rest) =>
      let st := if st.afterIndex && widPresent then { st with goodArgNum := false } else st
      ([], st, { f with wid := wid, widPresent := widPresent }, rest)

/-- Precision part of a directive. -/
def scanPrec (a : List Arg) (st : Scan) (f : Fmt) (format : List Char) :
    List Char × Scan × Fmt × List Char :=
  match format with
  | '.' :: rest =>
    let st := if st.afterIndex then { st with goodArgNum := false } else st
    match argNumber st rest a.length with
    | (st, rest) =>
      match rest with
      | '*' :: rest =>
        match intFromArg a st.argNum with
        | (prec, precPresent, argNum) =>
          let precPresent := if prec < 0 then false else precPresent
          let prec := if prec < 0 then 0 else prec
          let out := if !precPresent then "%!(BADPREC)".data else []
          (out, { st with argNum := argNum, afterIndex := false },
            { f with prec := prec.toNat, precPresent := precPresent }, rest)
      | _ =>
        match parsenum rest with
        | (prec, precPresent, rest) =>
          ([], st, { f with prec := if precPresent then prec else 0, precPresent := true }, rest)
  | _ => ([], st, f, format)

/-- One directive of `doPrintf`, applied to the text after its `%`: the flag
loop with its fast path for a plain lower-case verb, then index, width,
precision, index and verb. Yields the output written, the state, the unread
text and whether the scan stops here (template exhausted before a verb). -/
def directive [FmtOther] (a : List Arg) (st : Scan) (format : List Char) :
    List Char × Scan × List Char × Bool :=
  let st : Scan := { st with goodArgNum := true, afterIndex := false }
  match scanFlags format {} with
  | (f, format) =>
    let fast : Option (Char × List Char × Arg) :=
      match format with
      | c :: rest =>
        if 'a'.toNat ≤ c.toNat ∧ c.toNat ≤ 'z'.toNat then
          (a.get? st.argNum).map fun arg => (c, rest, arg)
        else none
      | [] => none
    match fast with
    | some (c, rest, arg) =>
      (printArg f arg c, { st with argNum := st.argNum + 1 }, rest, false)
    | none =>
      match argNumber st format a.length with
      | (st, format) =>
        match scanWidth a st f format with
        | (out1, st, f, format) =>
          match scanPrec a st f format with
          | (out2, st, f, format) =>
            match (if !st.afterIndex then argNumber st format a.length else (st, format)) with
            | (st, format) =>
              match format with
              | [] => (out1 ++ out2 ++ "%!(NOVERB)".data, st, [], true)
              | verb :: rest =>
                if verb = '%' then (out1 ++ out2 ++ ['%'], st, rest, false)
                else if !st.goodArgNum then
                  (out1 ++ out2 ++ ('%' :: '!' :: verb :: "(BADINDEX)".data), st, rest, false)
                else
                  match a.get? st.argNum with
                  | none =>
                    (out1 ++ out2 ++ ('%' :: '!' :: verb :: "(MISSING)".data), st, rest, false)
                  | some arg =>
                    (out1 ++ out2 ++ printArg f arg verb,
                      { st with argNum := st.argNum + 1 }, rest, false)

/-- The format loop of `pp.doPrintf`, followed by its report of left-over
operands. The first argument bounds the number of iterations; each iteration
consumes at least one character of the template. -/
def doPrintfLoop [FmtOther] (a : List Arg) : Nat → List Char → Scan → List Char
  | 0, _, _ => []
  | _ + 1, [], st => extraArgs a st
  | fuel + 1, c :: format, st =>
    if c ≠ '%' then c :: doPrintfLoop a fuel format st
    else
      match directive a st format with
      | (out, st, rest, stop) =>
        out ++ (if stop then extraArgs a st else doPrintfLoop a fuel rest st)

/-- The `pp.doPrintf` method. -/
def doPrintf [FmtOther] (format : List Char) (a : List Arg) : List Char :=
  doPrintfLoop a (format.length + 1) format { argNum := 0, reordered := false }

/-- The function `fmt.Sprintf`. -/
def Sprintf [FmtOther] (format : String) (a : List Arg) : String :=
  ⟨doPrintf format.data a⟩

/-- A rendering of the verbs outside this model, used to evaluate examples. -/
instance FmtOther.blank : FmtOther := ⟨fun _ _ _ => []⟩

/-! ## `strings.Join` -/

/-- The function `strings.Join`. -/
def Join : List String → String → String
  | [], _ => ""
  | e :: rest, sep => rest.foldl (fun b s => b ++ sep ++ s) e

/-! ## Entities declared outside `reply.go` -/

/-- The `Identifier` interface of `reply.go`; an implementing entity is
represented by what its three methods return. -/
structure Identifier where
  Id : String
  PublicId : String
  Nick : String
deriving DecidableEq, Repr

/-- Modelled from the spec: the `Client` type (declared outside `reply.go`), an
identity view with the `nick` field and the user-mode summary `UModeString()`
that `reply.go` reads. -/
structure Client extends Identifier where
  nick : String
  UModeString : String
deriving DecidableEq, Repr

/-- Modelled from the spec: the `User` type (declared outside `reply.go`), used
by `reply.go` as an identity view only. -/
structure User extends Identifier
deriving DecidableEq, Repr

/-- Modelled from the spec: a `time.Time` value, represented by the text
`Format(time.RFC1123)` gives for it. -/
structure Time where
  RFC1123 : String
deriving DecidableEq, Repr

/-- Modelled from the spec: the `Server` type (declared outside `reply.go`), an
identity view with a name and a creation time. -/
structure Server extends Identifier where
  name : String
  ctime : Time
deriving DecidableEq, Repr

/-- Modelled from the spec: the `Channel` type (declared outside `reply.go`):
name, topic, owning server and `Nicks()`, the member nicknames in the
channel's current member order. -/
structure Channel where
  name : String
  topic : String
  server : Server
  Nicks : List String
deriving DecidableEq, Repr

/-- Modelled from the spec: the numeric/command code registry and the version
string, constants declared outside `reply.go`. Their values are parameters. -/
class Registry where
  VERSION : String
  RPL_PRIVMSG : String
  RPL_NICK : String
  RPL_JOIN : String
  RPL_PART : String
  RPL_PONG : String
  RPL_QUIT : String
  RPL_INVITE : String
  RPL_WELCOME : Int
  RPL_YOURHOST : Int
  RPL_CREATED : Int
  RPL_MYINFO : Int
  RPL_UMODEIS : Int
  RPL_NOTOPIC : Int
  RPL_TOPIC : Int
  RPL_INVITING : Int
  RPL_NAMREPLY : Int
  RPL_ENDOFNAMES : Int
  RPL_YOUREOPER : Int
  ERR_ALREADYREGISTRED : Int
  ERR_NICKNAMEINUSE : Int
  ERR_UNKNOWNCOMMAND : Int
  ERR_USERSDONTMATCH : Int
  ERR_NEEDMOREPARAMS : Int
  ERR_NOSUCHCHANNEL : Int
  ERR_USERONCHANNEL : Int
  ERR_NOTONCHANNEL : Int
  ERR_INVITEONLYCHAN : Int
  ERR_BADCHANNELKEY : Int
  ERR_NOSUCHNICK : Int
  ERR_PASSWDMISMATCH : Int
  ERR_NOCHANMODES : Int
  ERR_NOPRIVILEGES : Int
  ERR_RESTRICTED : Int

/-- The registry with the command names and numerics of RFC 1459 / RFC 2812,
used to evaluate examples. -/
instance Registry.rfc : Registry where
  VERSION := "ergonomadic-1"
  RPL_PRIVMSG := "PRIVMSG"
  RPL_NICK := "NICK"
  RPL_JOIN := "JOIN"
  RPL_PART := "PART"
  RPL_PONG := "PONG"
  RPL_QUIT := "QUIT"
  RPL_INVITE := "INVITE"
  RPL_WELCOME := 1
  RPL_YOURHOST := 2
  RPL_CREATED := 3
  RPL_MYINFO := 4
  RPL_UMODEIS := 221
  RPL_NOTOPIC := 331
  RPL_TOPIC := 332
  RPL_INVITING := 341
  RPL_NAMREPLY := 353
  RPL_ENDOFNAMES := 366
  RPL_YOUREOPER := 381
  ERR_ALREADYREGISTRED := 462
  ERR_NICKNAMEINUSE := 433
  ERR_UNKNOWNCOMMAND := 421
  ERR_USERSDONTMATCH := 502
  ERR_NEEDMOREPARAMS := 461
  ERR_NOSUCHCHANNEL := 403
  ERR_USERONCHANNEL := 443
  ERR_NOTONCHANNEL := 442
  ERR_INVITEONLYCHAN := 473
  ERR_BADCHANNELKEY := 475
  ERR_NOSUCHNICK := 401
  ERR_PASSWDMISMATCH := 464
  ERR_NOCHANMODES := 477
  ERR_NOPRIVILEGES := 481
  ERR_RESTRICTED := 484

open Registry

/-! ## `reply.go` -/

section Replies

variable [FmtOther] [Registry]

/-- The struct `BaseReply`. -/
structure BaseReply where
  source : Identifier
  message : String
deriving DecidableEq, Repr

/-- The method `BaseReply.Source`. -/
def BaseReply.Source (reply : BaseReply) : Identifier :=
  reply.source

/-- The struct `StringReply`. -/
structure StringReply extends BaseReply where
  code : String
deriving DecidableEq, Repr

/-- The function `NewStringReply`. -/
def NewStringReply (source : Identifier) (code : String) (format : String)
    (args : List Arg) : StringReply :=
  let message := Sprintf format args
  let fullMessage := Sprintf ":%s %s %s" [.str source.Id, .str code, .str message]
  { toBaseReply := { source := source, message := fullMessage }, code := code }

/-- The method `StringReply.Format`. -/
def StringReply.Format (reply : StringReply) (_client : Client) : String :=
  reply.message

/-- The struct `NumericReply`. -/
structure NumericReply extends BaseReply where
  code : Int
deriving DecidableEq, Repr

/-- The function `NewNumericReply`. -/
def NewNumericReply (source : Identifier) (code : Int) (format : String)
    (args : List Arg) : NumericReply :=
  { toBaseReply := { source := source, message := Sprintf format args }, code := code }

/-- The method `NumericReply.Format`. -/
def NumericReply.Format (reply : NumericReply) (client : Client) : String :=
  Sprintf ":%s %03d %s %s"
    [.str reply.toBaseReply.Source.Id, .int reply.code, .str client.Nick, .str reply.message]

/-- The `Reply` interface: its two implementations. -/
inductive Reply where
  | string (reply : StringReply)
  | numeric (reply : NumericReply)
deriving DecidableEq, Repr

/-- Dispatch of `Reply.Format`. -/
def Reply.Format : Reply → Client → String
  | .string reply, client => reply.Format client
  | .numeric reply, client => reply.Format client

/-- Dispatch of `Reply.Source`. -/
def Reply.Source : Reply → Identifier
  | .string reply => reply.toBaseReply.Source
  | .numeric reply => reply.toBaseReply.Source

/-- The stored `message` field of a reply. -/
def Reply.message : Reply → String
  | .string reply => reply.message
  | .numeric reply => reply.message

/-! ### messaging replies, numeric replies, errors -/

/-- The constructor `RplPrivMsg`. -/
def RplPrivMsg (source : Identifier) (target : Identifier) (message : String) : Reply :=
  .string (NewStringReply source RPL_PRIVMSG "%s :%s"
    [.str target.Nick, .str message])

/-- The constructor `RplNick`. -/
def RplNick (source : Identifier) (newNick : String) : Reply :=
  .string (NewStringReply source RPL_NICK newNick
    [])

/-- The constructor `RplPrivMsgChannel`. -/
def RplPrivMsgChannel (channel : Channel) (source : Identifier) (message : String) : Reply :=
  .string (NewStringReply source RPL_PRIVMSG "%s :%s"
    [.str channel.name, .str message])

/-- The constructor `RplJoin`. -/
def RplJoin (channel : Channel) (user : User) : Reply :=
  .string (NewStringReply user.toIdentifier RPL_JOIN channel.name
    [])

/-- The constructor `RplPart`. -/
def RplPart (channel : Channel) (user : User) (message : String) : Reply :=
  .string (NewStringReply user.toIdentifier RPL_PART "%s :%s"
    [.str channel.name, .str message])

/-- The constructor `RplPong`. -/
def RplPong (server : Server) : Reply :=
  .string (NewStringReply server.toIdentifier RPL_PONG server.Id
    [])

/-- The constructor `RplQuit`. -/
def RplQuit (client : Client) (message : String) : Reply :=
  .string (NewStringReply client.toIdentifier RPL_QUIT ":%s"
    [.str message])

/-- The constructor `RplInviteMsg`. -/
def RplInviteMsg (channel : Channel) (inviter : Client) : Reply :=
  .string (NewStringReply inviter.toIdentifier RPL_INVITE channel.name
    [])

/-- The constructor `RplWelcome`. -/
def RplWelcome (source : Identifier) (client : Client) : Reply :=
  .numeric (NewNumericReply source RPL_WELCOME "Welcome to the Internet Relay Network %s"
    [.str client.Id])

/-- The constructor `RplYourHost`. -/
def RplYourHost (server : Server) (_target : Client) : Reply :=
  .numeric (NewNumericReply server.toIdentifier RPL_YOURHOST "Your host is %s, running version %s"
    [.str server.name, .str VERSION])

/-- The constructor `RplCreated`. -/
def RplCreated (server : Server) : Reply :=
  .numeric (NewNumericReply server.toIdentifier RPL_CREATED "This server was created %s"
    [.str server.ctime.RFC1123])

/-- The constructor `RplMyInfo`. -/
def RplMyInfo (server : Server) : Reply :=
  .numeric (NewNumericReply server.toIdentifier RPL_MYINFO "%s %s a kn"
    [.str server.name, .str VERSION])

/-- The constructor `RplUModeIs`. -/
def RplUModeIs (server : Server) (client : Client) : Reply :=
  .numeric (NewNumericReply server.toIdentifier RPL_UMODEIS client.UModeString
    [])

/-- The constructor `RplNoTopic`. -/
def RplNoTopic (channel : Channel) : Reply :=
  .numeric (NewNumericReply channel.server.toIdentifier RPL_NOTOPIC "%s :No topic is set"
    [.str channel.name])

/-- The constructor `RplTopic`. -/
def RplTopic (channel : Channel) : Reply :=
  .numeric (NewNumericReply channel.server.toIdentifier RPL_TOPIC "%s :%s"
    [.str channel.name, .str channel.topic])

/-- The constructor `RplInvitingMsg`. -/
def RplInvitingMsg (channel : Channel) (invitee : Client) : Reply :=
  .numeric (NewNumericReply channel.server.toIdentifier RPL_INVITING "%s %s"
    [.str channel.name, .str invitee.Nick])

/-- The constructor `RplNamReply`. -/
def RplNamReply (channel : Channel) : Reply :=
  .numeric (NewNumericReply channel.server.toIdentifier RPL_NAMREPLY "= %s :%s"
    [.str channel.name, .str (Join channel.Nicks " ")])

/-- The constructor `RplEndOfNames`. -/
def RplEndOfNames (source : Identifier) : Reply :=
  .numeric (NewNumericReply source RPL_ENDOFNAMES ":End of NAMES list"
    [])

/-- The constructor `RplYoureOper`. -/
def RplYoureOper (server : Server) : Reply :=
  .numeric (NewNumericReply server.toIdentifier RPL_YOUREOPER ":You are now an IRC operator"
    [])

/-- The constructor `ErrAlreadyRegistered`. -/
def ErrAlreadyRegistered (source : Identifier) : Reply :=
  .numeric (NewNumericReply source ERR_ALREADYREGISTRED ":You may not reregister"
    [])

/-- The constructor `ErrNickNameInUse`. -/
def ErrNickNameInUse (source : Identifier) (nick : String) : Reply :=
  .numeric (NewNumericReply source ERR_NICKNAMEINUSE "%s :Nickname is already in use"
    [.str nick])

/-- The constructor `ErrUnknownCommand`. -/
def ErrUnknownCommand (source : Identifier) (command : String) : Reply :=
  .numeric (NewNumericReply source ERR_UNKNOWNCOMMAND "%s :Unknown command"
    [.str command])

/-- The constructor `ErrUsersDontMatch`. -/
def ErrUsersDontMatch (source : Identifier) : Reply :=
  .numeric (NewNumericReply source ERR_USERSDONTMATCH ":Cannot change mode for other users"
    [])

/-- The constructor `ErrNeedMoreParams`. -/
def ErrNeedMoreParams (source : Identifier) (command : String) : Reply :=
  .numeric (NewNumericReply source ERR_NEEDMOREPARAMS "%s :Not enough parameters"
    [.str command])

/-- The constructor `ErrNoSuchChannel`. -/
def ErrNoSuchChannel (source : Identifier) (channel : String) : Reply :=
  .numeric (NewNumericReply source ERR_NOSUCHCHANNEL "%s :No such channel"
    [.str channel])

/-- The constructor `ErrUserOnChannel`. -/
def ErrUserOnChannel (channel : Channel) (member : Client) : Reply :=
  .numeric (NewNumericReply channel.server.toIdentifier ERR_USERONCHANNEL "%s %s :is already on channel"
    [.str member.nick, .str channel.name])

/-- The constructor `ErrNotOnChannel`. -/
def ErrNotOnChannel (channel : Channel) : Reply :=
  .numeric (NewNumericReply channel.server.toIdentifier ERR_NOTONCHANNEL "%s :You're not on that channel"
    [.str channel.name])

/-- The constructor `ErrInviteOnlyChannel`. -/
def ErrInviteOnlyChannel (channel : Channel) : Reply :=
  .numeric (NewNumericReply channel.server.toIdentifier ERR_INVITEONLYCHAN "%s :Cannot join channel (+i)"
    [.str channel.name])

/-- The constructor `ErrBadChannelKey`. -/
def ErrBadChannelKey (channel : Channel) : Reply :=
  .numeric (NewNumericReply channel.server.toIdentifier ERR_BADCHANNELKEY "%s :Cannot join channel (+k)"
    [.str channel.name])

/-- The constructor `ErrNoSuchNick`. -/
def ErrNoSuchNick (source : Identifier) (nick : String) : Reply :=
  .numeric (NewNumericReply source ERR_NOSUCHNICK "%s :No such nick/channel"
    [.str nick])

/-- The constructor `ErrPasswdMismatch`. -/
def ErrPasswdMismatch (server : Server) : Reply :=
  .numeric (NewNumericReply server.toIdentifier ERR_PASSWDMISMATCH ":Password incorrect"
    [])

/-- The constructor `ErrNoChanModes`. -/
def ErrNoChanModes (channel : Channel) : Reply :=
  .numeric (NewNumericReply channel.server.toIdentifier ERR_NOCHANMODES "%s :Channel doesn't support modes"
    [.str channel.name])

/-- The constructor `ErrNoPrivileges`. -/
def ErrNoPrivileges (server : Server) : Reply :=
  .numeric (NewNumericReply server.toIdentifier ERR_NOPRIVILEGES ":Permission Denied"
    [])

/-- The constructor `ErrRestricted`. -/
def ErrRestricted (server : Server) : Reply :=
  .numeric (NewNumericReply server.toIdentifier ERR_RESTRICTED ":Your connection is restricted!"
    [])

end Replies

/-! ## Notions used to state the properties -/

/-- The code slot written by `NumericReply.Format`: the operand `reply.code`
under the directive `%03d` (zero flag, width 3). -/
def codeToken (code : Int) : String :=
  ⟨fmtInteger { zero := true, widPresent := true, wid := 3 } code⟩

/-- The specification's zero padding: the decimal numeral of `code`, with
zeros put in front of it until it has three digits. -/
def zeroPad3 (code : Nat) : String :=
  ⟨List.replicate (3 - (Nat.repr code).length) '0'⟩ ++ Nat.repr code

/-- Text that consists of exactly three decimal digits. -/
def isThreeDigits (s : String) : Bool :=
  s.data.length == 3 && s.data.all Char.isDigit

/-- Whether a colon follows a space somewhere in the text. -/
def colonAfterSpace : List Char → Bool
  | [] => false
  | c :: cs =>
    match c, cs with
    | ' ', ':' :: _ => true
    | _, _ => colonAfterSpace cs

/-- Modelled from the spec: the trailing-parameter convention. A payload marks
a trailing parameter when one of its space-separated parameters begins with a
colon. -/
def marksTrailing (payload : String) : Bool :=
  payload.data.head? == some ':' || colonAfterSpace payload.data

/-- The number of decimal digits in a text. -/
def digitCount (s : String) : Nat :=
  s.data.countP Char.isDigit

/-- An identity view whose `Nick()` gives another nickname. -/
def Identifier.withNick (i : Identifier) (n : String) : Identifier :=
  { i with Nick := n }

/-- A client whose `Nick()` and `nick` give other nicknames. -/
def Client.withNick (c : Client) (n m : String) : Client :=
  { c with Nick := n, nick := m }

/-- A server whose `Nick()` gives another nickname. -/
def Server.withNick (s : Server) (n : String) : Server :=
  { s with Nick := n }

/-- A channel with other member nicknames, on a server with another nickname. -/
def Channel.withNicks (ch : Channel) (n : String) (members : List String) : Channel :=
  { ch with server := ch.server.withNick n, Nicks := members }

/-- Whether a reply is of the numeric shape. -/
def Reply.isNumeric : Reply → Bool
  | .string _ => false
  | .numeric _ => true

/-- The pieces of a text between its spaces. -/
def splitSpaces : List Char → List (List Char)
  | [] => [[]]
  | c :: cs =>
    if c = ' ' then [] :: splitSpaces cs
    else
      match splitSpaces cs with
      | [] => [[c]]
      | t :: ts => (c :: t) :: ts

/-- The space-separated token of a line at a position, counted from 0. -/
def token (line : String) (i : Nat) : Option String :=
  ((splitSpaces line.data).get? i).map String.mk

/-- The number that a text of decimal digits denotes. -/
def decimalValue (s : String) : Nat :=
  s.data.foldl (fun acc c => acc * 10 + (c.toNat - '0'.toNat)) 0

/-! ## Entities of the specification's examples -/

namespace Example

/-- The server identity `irc.local`. -/
def ircLocal : Server :=
  { Id := "irc.local", PublicId := "irc.local", Nick := "irc.local",
    name := "irc.local", ctime := ⟨"Mon, 02 Jan 2006 15:04:05 MST"⟩ }

/-- The client `alice!a@h` with nickname `alice`. -/
def alice : Client :=
  { Id := "alice!a@h", PublicId := "alice!a@h", Nick := "alice", nick := "alice",
    UModeString := "" }

/-- The user `bob!b@h`. -/
def bob : User :=
  { Id := "bob!b@h", PublicId := "bob!b@h", Nick := "bob" }

/-- A client whose nickname is `x`. -/
def x : Client :=
  { Id := "x!x@h", PublicId := "x!x@h", Nick := "x", nick := "x", UModeString := "" }

/-- A channel of `irc.local` with the given name and member nicknames. -/
def channel (name : String) (nicks : List String) : Channel :=
  { name := name, topic := "", server := ircLocal, Nicks := nicks }

end Example

/-! ## The format loop consumes its template -/

/-- The flag loop leaves a suffix of its input unread. -/
theorem scanFlags_length (cs : List Char) (f : Fmt) :
    (scanFlags cs f).2.length ≤ cs.length := by
  induction cs generalizing f with
  | nil => simp [scanFlags]
  | cons c cs ih =>
    simp only [scanFlags]
    split_ifs <;> first | exact Nat.le_succ_of_le (ih _) | simp

/-- The digit loop of `parsenum` leaves a suffix of its input unread. -/
theorem parsenumLoop_length (cs : List Char) (num : Nat) (isnum : Bool) :
    (parsenumLoop cs num isnum).2.2.length ≤ cs.length := by
  induction cs generalizing num isnum with
  | nil => simp [parsenumLoop]
  | cons c cs ih =>
    simp only [parsenumLoop]
    split_ifs <;> first | exact Nat.le_succ_of_le (ih _ _) | simp

/-- The helper `parseArgNumber` leaves a suffix of its input unread. -/
theorem parseArgNumber_length (format : List Char) :
    (parseArgNumber format).2.1.length ≤ format.length := by
  have hd : (List.dropWhile (fun c => decide (c ≠ ']')) (format.drop 1)).length ≤ format.length :=
    le_trans (List.Sublist.length_le (List.dropWhile_sublist _)) (by simp)
  unfold parseArgNumber
  split_ifs
  · simp
  · split
    · simp
    · rename_i rest heq
      rw [heq] at hd
      simp at hd
      dsimp only
      generalize parsenum _ = r
      obtain ⟨width, ok, unread⟩ := r
      dsimp only
      split_ifs <;> simp <;> omega

/-- The method `argNumber` leaves a suffix of its input unread. -/
theorem argNumber_length (st : Scan) (format : List Char) (numArgs : Nat) :
    (argNumber st format numArgs).2.length ≤ format.length := by
  unfold argNumber
  split
  · rename_i tl
    have := parseArgNumber_length ('[' :: tl)
    generalize parseArgNumber _ = r at this ⊢
    obtain ⟨index, rest, ok⟩ := r
    dsimp only at this ⊢
    split_ifs <;> simpa using this
  · simp

/-- The width part leaves a suffix of its input unread. -/
theorem scanWidth_length (a : List Arg) (st : Scan) (f : Fmt) (format : List Char) :
    (scanWidth a st f format).2.2.2.length ≤ format.length := by
  unfold scanWidth
  split
  · generalize intFromArg _ _ = r
    obtain ⟨wid, wp, argNum⟩ := r
    simp
  · have := parsenumLoop_length format 0 false
    simp only [parsenum]
    generalize parsenumLoop _ _ _ = r at this ⊢
    obtain ⟨wid, wp, rest⟩ := r
    simpa using this

/-- The precision part leaves a suffix of its input unread. -/
theorem scanPrec_length (a : List Arg) (st : Scan) (f : Fmt) (format : List Char) :
    (scanPrec a st f format).2.2.2.length ≤ format.length := by
  unfold scanPrec
  split
  · rename_i rest
    dsimp only
    have h1 := argNumber_length (if st.afterIndex then { st with goodArgNum := false } else st)
      rest a.length
    generalize argNumber _ rest a.length = r at h1 ⊢
    obtain ⟨st2, rest2⟩ := r
    dsimp only at h1 ⊢
    split
    · rename_i tl
      generalize intFromArg _ _ = r
      obtain ⟨prec, pp, argNum⟩ := r
      simp at h1 ⊢
      omega
    · have := parsenumLoop_length rest2 0 false
      simp only [parsenum]
      generalize parsenumLoop _ _ _ = r at this ⊢
      obtain ⟨p, pp, r⟩ := r
      simp at this ⊢
      omega
  · simp

/-- A directive leaves a suffix of its input unread. -/
theorem directive_length [FmtOther] (a : List Arg) (st : Scan) (format : List Char) :
    (directive a st format).2.2.1.length ≤ format.length := by
  unfold directive
  dsimp only
  have h0 := scanFlags_length format {}
  generalize scanFlags format {} = r at h0 ⊢
  obtain ⟨f, format1⟩ := r
  dsimp only at h0 ⊢
  split
  · rename_i c rest arg heq
    cases format1 with
    | nil => simp at heq
    | cons c1 rest1 =>
      simp only [] at heq
      split_ifs at heq
      · simp only [Option.map_eq_some'] at heq
        obtain ⟨_, _, h⟩ := heq
        simp only [Prod.mk.injEq] at h
        obtain ⟨_, h, _⟩ := h
        subst h
        simp at h0 ⊢
        omega
  · have h1 := argNumber_length { st with goodArgNum := true, afterIndex := false } format1 a.length
    generalize argNumber _ format1 a.length = r at h1 ⊢
    obtain ⟨st1, format2⟩ := r
    dsimp only at h1 ⊢
    have h2 := scanWidth_length a st1 f format2
    generalize scanWidth a st1 f format2 = r at h2 ⊢
    obtain ⟨out1, st2, f2, format3⟩ := r
    dsimp only at h2 ⊢
    have h3 := scanPrec_length a st2 f2 format3
    generalize scanPrec a st2 f2 format3 = r at h3 ⊢
    obtain ⟨out2, st3, f3, format4⟩ := r
    dsimp only at h3 ⊢
    have h4 : (if !st3.afterIndex then argNumber st3 format4 a.length else (st3, format4)).2.length
        ≤ format4.length := by
      split_ifs
      · exact argNumber_length _ _ _
      · simp
    generalize (if !st3.afterIndex then argNumber st3 format4 a.length else (st3, format4)) = r
      at h4 ⊢
    obtain ⟨st4, format5⟩ := r
    dsimp only at h4 ⊢
    split
    · simp
    · rename_i verb rest
      simp at h4
      split_ifs
      · simp; omega
      · simp; omega
      · split <;> simp <;> omega

/-- The iteration bound of `doPrintf` is never reached: any two bounds above the
length of the template give the same output. -/
theorem doPrintfLoop_fuel [FmtOther] (a : List Arg) (n m : Nat) (format : List Char) (st : Scan)
    (hn : format.length < n) (hm : format.length < m) :
    doPrintfLoop a n format st = doPrintfLoop a m format st := by
  induction n generalizing m format st with
  | zero => omega
  | succ n ih =>
    cases m with
    | zero => omega
    | succ m =>
      cases format with
      | nil => simp [doPrintfLoop]
      | cons c format =>
        simp only [doPrintfLoop]
        simp only [List.length_cons] at hn hm
        have hl := directive_length a st format
        split_ifs
        · rw [ih m format st (by omega) (by omega)]
        · rfl
        · rw [ih m (directive a st format).2.2.1 _ (by omega) (by omega)]

/-! ## Lemmas on `Sprintf` -/

/-- A template without `%` and without operands is copied unchanged. -/
theorem doPrintfLoop_plain [FmtOther] (s : List Char) (h : '%' ∉ s) (n : Nat)
    (hn : s.length < n) (st : Scan) : doPrintfLoop [] n s st = s := by
  induction s generalizing n with
  | nil =>
    cases n with
    | zero => simp at hn
    | succ n => simp [doPrintfLoop, extraArgs]
  | cons c cs ih =>
    cases n with
    | zero => simp at hn
    | succ n =>
      simp at h hn
      simp [doPrintfLoop, Ne.symm h.1]
      exact ih h.2 n hn

/-- The function `Sprintf` on a template without `%` and no operands. -/
theorem Sprintf_plain [FmtOther] (s : String) (h : '%' ∉ s.data) : Sprintf s [] = s := by
  apply String.ext
  simp [Sprintf, doPrintf]
  exact doPrintfLoop_plain s.data h _ (by simp) _

/-- The line template of `NewStringReply`. -/
theorem Sprintf_stringLine [FmtOther] (a b c : String) :
    Sprintf ":%s %s %s" [.str a, .str b, .str c] = ":" ++ a ++ " " ++ b ++ " " ++ c := by
  apply String.ext
  simp [Sprintf, doPrintf, doPrintfLoop, directive, scanFlags, printArg, fmtS, pad,
    truncateString, extraArgs]

/-- The line template of `NumericReply.Format`. -/
theorem Sprintf_numericLine [FmtOther] (a : String) (code : Int) (b c : String) :
    Sprintf ":%s %03d %s %s" [.str a, .int code, .str b, .str c]
      = ":" ++ a ++ " " ++ codeToken code ++ " " ++ b ++ " " ++ c := by
  apply String.ext
  simp [Sprintf, doPrintf, doPrintfLoop, directive, scanFlags, printArg, fmtS, pad,
    truncateString, extraArgs, argNumber, scanWidth, scanPrec, parsenum, parsenumLoop,
    tooLarge, codeToken]

/-- The directive `%03d` alone writes the code slot. -/
theorem Sprintf_code [FmtOther] (code : Int) : Sprintf "%03d" [.int code] = codeToken code := by
  apply String.ext
  simp [Sprintf, doPrintf, doPrintfLoop, directive, scanFlags, printArg, extraArgs, argNumber,
    scanWidth, scanPrec, parsenum, parsenumLoop, tooLarge, codeToken]

/-- Rendering of a numeric reply, by its fields. -/
theorem NumericReply.Format_eq [FmtOther] (reply : NumericReply) (client : Client) :
    reply.Format client = ":" ++ reply.source.Id ++ " " ++ codeToken reply.code ++ " "
      ++ client.Nick ++ " " ++ reply.message := by
  simp [NumericReply.Format, BaseReply.Source, Sprintf_numericLine]

/-! ## Lemmas on decimal numerals -/

/-- The digit loop agrees with the standard library's digit loop. -/
theorem decimalLoop_eq_toDigitsCore (fuel u : Nat) (acc : List Char) (h : u < fuel) :
    decimalLoop fuel u acc = Nat.toDigitsCore 10 fuel u acc := by
  induction fuel generalizing u acc with
  | zero => omega
  | succ fuel ih =>
    simp only [decimalLoop, Nat.toDigitsCore]
    by_cases h10 : 10 ≤ u
    · have hne : u / 10 ≠ 0 := by omega
      simp only [h10, hne, if_true, if_false]
      exact ih _ _ (by omega)
    · have he : u / 10 = 0 := by omega
      have hm : u % 10 = u := by omega
      simp [h10, he, hm]

/-- The digits written are the standard decimal numeral. -/
theorem decimal_eq_repr (u : Nat) : decimal u = (Nat.repr u).data := by
  simp [decimal, Nat.repr, Nat.toDigits, decimalLoop_eq_toDigitsCore, List.asString]

/-- For a code that is not negative the code slot is the zero-padded numeral. -/
theorem codeToken_nat (n : Nat) : codeToken (n : Int) = zeroPad3 n := by
  apply String.ext
  have hn : ¬ ((n : Int) < 0) := by omega
  simp [codeToken, zeroPad3, fmtInteger, pad, writePadding, decimal_eq_repr, hn]
  omega

/-- Every value below ten has a decimal digit character. -/
theorem digitChar_isDigit (d : Nat) (h : d < 10) : (Nat.digitChar d).isDigit = true := by
  interval_cases d <;> decide

/-- The digit loop writes decimal digits only. -/
theorem decimalLoop_isDigit (fuel u : Nat) (acc : List Char) (h : u < fuel)
    (hacc : ∀ x ∈ acc, x.isDigit = true) : ∀ x ∈ decimalLoop fuel u acc, x.isDigit = true := by
  induction fuel generalizing u acc with
  | zero => omega
  | succ fuel ih =>
    simp only [decimalLoop]
    by_cases h10 : 10 ≤ u
    · simp only [h10, if_true]
      apply ih _ _ (by omega)
      intro x hx
      rcases List.mem_cons.mp hx with rfl | hx
      · exact digitChar_isDigit _ (by omega)
      · exact hacc x hx
    · simp only [h10, if_false]
      intro x hx
      rcases List.mem_cons.mp hx with rfl | hx
      · exact digitChar_isDigit _ (by omega)
      · exact hacc x hx

/-- The digit loop writes at most `k + 1` digits for a value below `10 ^ (k + 1)`. -/
theorem decimalLoop_length_le (fuel u : Nat) (acc : List Char) (k : Nat) (h : u < fuel)
    (hk : u < 10 ^ (k + 1)) : (decimalLoop fuel u acc).length ≤ acc.length + k + 1 := by
  induction fuel generalizing u acc k with
  | zero => omega
  | succ fuel ih =>
    simp only [decimalLoop]
    by_cases h10 : 10 ≤ u
    · simp only [h10, if_true]
      cases k with
      | zero => omega
      | succ k =>
        have hdiv : u / 10 < 10 ^ (k + 1) := by
          apply Nat.div_lt_of_lt_mul
          rw [← pow_succ']
          exact hk
        have := ih (u / 10) (Nat.digitChar (u % 10) :: acc) k (by omega) hdiv
        simp at this
        omega
    · simp only [h10, if_false]
      simp

/-- The code slot of a code from 0 to 999 is three decimal digits. -/
theorem codeToken_threeDigits (n : Nat) (h : n ≤ 999) :
    isThreeDigits (codeToken (n : Int)) = true := by
  have hn : ¬ ((n : Int) < 0) := by omega
  have hd : ∀ x ∈ decimal n, x.isDigit = true :=
    decimalLoop_isDigit _ _ _ (by omega) (by simp)
  have hl : (decimal n).length ≤ 3 := by
    have := decimalLoop_length_le (n + 1) n [] 2 (by omega) (by omega)
    simpa [decimal] using this
  have z : ('0' : Char).isDigit = true := by decide
  simp only [isThreeDigits, codeToken, fmtInteger, pad, writePadding, Int.natAbs_ofNat,
    Int.natAbs_cast]
  generalize decimal n = d at hd hl
  simp [hn, z]
  refine ⟨by omega, by omega, hd⟩

/-! ## Lemmas on `Join` -/

/-- The accumulation loop of `Join` is the one of `String.intercalate`. -/
theorem foldl_eq_intercalate_go (sep : String) (rest : List String) (acc : String) :
    rest.foldl (fun b s => b ++ sep ++ s) acc = String.intercalate.go acc sep rest := by
  induction rest generalizing acc with
  | nil => simp [String.intercalate.go]
  | cons e rest ih => simp [String.intercalate.go, ih]

/-- The function `Join` puts the separator between consecutive elements. -/
theorem Join_eq_intercalate (elems : List String) (sep : String) :
    Join elems sep = sep.intercalate elems := by
  cases elems with
  | nil => simp [Join, String.intercalate]
  | cons e rest => simp [Join, String.intercalate, foldl_eq_intercalate_go]

/-! ## Rendering of the two reply shapes -/

/-- C1, as stated, fails: code -1 renders with the code slot "-01", which has
two digits and so is not the code zero-padded to three digits. -/
theorem C1_counterexample :
    (NewNumericReply Example.ircLocal.toIdentifier (-1) "x" []).Format Example.alice
        = ":irc.local -01 alice x"
    ∧ token ((NewNumericReply Example.ircLocal.toIdentifier (-1) "x" []).Format
        Example.alice) 1 = some "-01"
    ∧ digitCount "-01" = 2 := by
  decide

/-- C1, amended: a reply built by `NewNumericReply` stores the formatted
arguments as its payload; when its code is not negative it renders, for every
recipient, as ":" + source id + " " + the code zero-padded to three digits +
" " + recipient nickname + " " + payload; and for every code the lines for two
recipients differ in the nickname slot only. -/
theorem C1_numeric_reply_format [FmtOther] (source : Identifier) (code : Int)
    (format : String) (args : List Arg) :
    (NewNumericReply source code format args).message = Sprintf format args
    ∧ (0 ≤ code → ∀ client : Client,
        (NewNumericReply source code format args).Format client
          = ":" ++ source.Id ++ " " ++ zeroPad3 code.toNat ++ " " ++ client.Nick ++ " "
            ++ Sprintf format args)
    ∧ ∃ pre suf : String, ∀ client : Client,
        (NewNumericReply source code format args).Format client
          = pre ++ client.Nick ++ suf := by
  have key : ∀ client : Client, (NewNumericReply source code format args).Format client
      = ":" ++ source.Id ++ " " ++ codeToken code ++ " " ++ client.Nick ++ " "
        ++ Sprintf format args := by
    intro client
    rw [NumericReply.Format_eq]
    rfl
  refine ⟨rfl, ?_, ":" ++ source.Id ++ " " ++ codeToken code ++ " ",
    " " ++ Sprintf format args, ?_⟩
  · intro h0 client
    obtain ⟨n, rfl⟩ := Int.eq_ofNat_of_zero_le h0
    rw [key, codeToken_nat]
    rfl
  · intro client
    rw [key]
    simp [String.append_assoc]

/-- C1, amended, at codes 1 and 1000 for the recipient "alice". -/
theorem C1_numeric_reply_format_witness :
    (NewNumericReply Example.ircLocal.toIdentifier 1 "x" []).Format Example.alice
        = ":irc.local 001 alice x"
    ∧ (NewNumericReply Example.ircLocal.toIdentifier 1000 "x" []).Format Example.alice
        = ":irc.local 1000 alice x" :=
  ⟨((C1_numeric_reply_format Example.ircLocal.toIdentifier 1 "x" []).2.1 (by decide)
      Example.alice).trans (by decide),
   ((C1_numeric_reply_format Example.ircLocal.toIdentifier 1000 "x" []).2.1 (by decide)
      Example.alice).trans (by decide)⟩

/-- C2: a reply built by `NewStringReply` renders as ":" + source id + " " + code
+ " " + formatted arguments, and that same text for every recipient. -/
theorem C2_string_reply_format [FmtOther] (source : Identifier) (code : String)
    (format : String) (args : List Arg) (client other : Client) :
    (NewStringReply source code format args).Format client
        = ":" ++ source.Id ++ " " ++ code ++ " " ++ Sprintf format args
    ∧ (NewStringReply source code format args).Format client
        = (NewStringReply source code format args).Format other := by
  refine ⟨?_, rfl⟩
  simp [StringReply.Format, NewStringReply, Sprintf_stringLine]

/-- C3, as stated, fails: code 1000 renders with the four-character code slot
"1000" and code -1 with the slot "-01", neither being three decimal digits. -/
theorem C3_counterexample :
    (NewNumericReply Example.ircLocal.toIdentifier 1000 "x" []).Format Example.alice
        = ":irc.local 1000 alice x"
    ∧ isThreeDigits (codeToken 1000) = false
    ∧ codeToken (-1) = "-01"
    ∧ isThreeDigits (codeToken (-1)) = false := by
  decide

/-- C3, amended: for a code from 0 to 999 the code slot written by
`NumericReply.Format` consists of exactly three decimal digits. -/
theorem C3_code_slot_three_digits [FmtOther] (reply : NumericReply) (client : Client)
    (h0 : 0 ≤ reply.code) (h1 : reply.code ≤ 999) :
    isThreeDigits (codeToken reply.code) = true
    ∧ reply.Format client = ":" ++ reply.source.Id ++ " " ++ codeToken reply.code ++ " "
        ++ client.Nick ++ " " ++ reply.message := by
  refine ⟨?_, NumericReply.Format_eq reply client⟩
  obtain ⟨n, hn⟩ := Int.eq_ofNat_of_zero_le h0
  rw [hn]
  exact codeToken_threeDigits n (by omega)

/-- C3, amended, at codes 461 and 1: the slots are "461" and "001". -/
theorem C3_code_slot_three_digits_witness :
    isThreeDigits (codeToken 461) = true ∧ codeToken 461 = "461" ∧ codeToken 1 = "001" :=
  ⟨(C3_code_slot_three_digits
      (NewNumericReply Example.ircLocal.toIdentifier 461 "x" []) Example.alice
      (by decide) (by decide)).1, by decide, by decide⟩

/-! ## The catalog -/

/-- C4: the code renders the welcome banner of the specification's example
without the colon that the specification's line has before "Welcome". -/
theorem C4_welcome_line_lacks_colon :
    (RplWelcome Example.ircLocal.toIdentifier Example.alice).Format Example.alice
        = ":irc.local 001 alice Welcome to the Internet Relay Network alice!a@h"
    ∧ (RplWelcome Example.ircLocal.toIdentifier Example.alice).Format Example.alice
        ≠ ":irc.local 001 alice :Welcome to the Internet Relay Network alice!a@h" := by
  decide

/-- C5: `RplJoin` uses the channel name as a template: the name "#go" renders as
in the specification, the name "#100%" renders with the report "%!(NOVERB)"
after it. -/
theorem C5_join_name_used_as_template :
    (RplJoin (Example.channel "#go" []) Example.bob).Format Example.alice
        = ":bob!b@h JOIN #go"
    ∧ (RplJoin (Example.channel "#100%" []) Example.bob).Format Example.alice
        = ":bob!b@h JOIN #100%!(NOVERB)"
    ∧ (RplJoin (Example.channel "#100%" []) Example.bob).Format Example.alice
        ≠ ":bob!b@h JOIN #100%" := by
  decide

/-- C6: with numeric code 461, `ErrNeedMoreParams(source, command)` renders for a
recipient as ":" + source id + " 461 " + recipient nickname + " " + command +
" :Not enough parameters". -/
theorem C6_need_more_params_line [FmtOther] [Registry] (hcode : ERR_NEEDMOREPARAMS = 461)
    (source : Identifier) (command : String) (client : Client) :
    (ErrNeedMoreParams source command).Format client
      = ":" ++ source.Id ++ " 461 " ++ client.Nick ++ " " ++ command
        ++ " :Not enough parameters" := by
  have hfmt : Sprintf "%s :Not enough parameters" [.str command]
      = command ++ " :Not enough parameters" := by
    apply String.ext
    simp [Sprintf, doPrintf, doPrintfLoop, directive, scanFlags, printArg, fmtS, pad,
      truncateString, extraArgs]
  have htok : codeToken 461 = "461" := by decide
  simp only [ErrNeedMoreParams, Reply.Format, NumericReply.Format_eq, NewNumericReply, hcode,
    hfmt, htok]
  simp [String.append_assoc]

/-- C6 at the specification's example: command "PRIVMSG", recipient nickname "x". -/
theorem C6_need_more_params_line_witness :
    ERR_NEEDMOREPARAMS = 461
    ∧ (ErrNeedMoreParams Example.ircLocal.toIdentifier "PRIVMSG").Format Example.x
        = ":irc.local 461 x PRIVMSG :Not enough parameters" :=
  ⟨rfl, (C6_need_more_params_line rfl Example.ircLocal.toIdentifier "PRIVMSG"
    Example.x).trans (by decide)⟩

/-- C7: the payload stored by `ErrNickNameInUse(source, nick)` is nick +
" :Nickname is already in use", for every nick string. -/
theorem C7_nickname_in_use_payload [FmtOther] [Registry] (source : Identifier)
    (nick : String) :
    (ErrNickNameInUse source nick).message = nick ++ " :Nickname is already in use" := by
  apply String.ext
  simp [ErrNickNameInUse, Reply.message, NewNumericReply, Sprintf, doPrintf, doPrintfLoop,
    directive, scanFlags, printArg, fmtS, pad, truncateString, extraArgs]

/-- C8: the payload of `RplNamReply(channel)` is "= " + channel name + " :" + the
member nicknames in member order with one space between consecutive ones;
members a, b, c of "#chan" give "= #chan :a b c", no members give "= #chan :". -/
theorem C8_names_reply_payload [FmtOther] [Registry] (channel : Channel) :
    (RplNamReply channel).message
        = "= " ++ channel.name ++ " :" ++ " ".intercalate channel.Nicks
    ∧ (RplNamReply (Example.channel "#chan" ["a", "b", "c"])).message = "= #chan :a b c"
    ∧ (RplNamReply (Example.channel "#chan" [])).message = "= #chan :" := by
  have key : ∀ ch : Channel,
      (RplNamReply ch).message = "= " ++ ch.name ++ " :" ++ " ".intercalate ch.Nicks := by
    intro ch
    apply String.ext
    simp [RplNamReply, Reply.message, NewNumericReply, Sprintf, doPrintf, doPrintfLoop,
      directive, scanFlags, printArg, fmtS, pad, truncateString, extraArgs,
      Join_eq_intercalate]
  refine ⟨key channel, ?_, ?_⟩
  · rw [key]
    decide
  · rw [key]
    decide

/-- C9: the source of the reply returned by every catalog constructor is the
identity passed to it: the `source` parameter, the user of `RplJoin` and
`RplPart`, the client of `RplQuit` and `RplInviteMsg`, the server of the
constructors that take one, and the channel's server otherwise. -/
theorem C9_constructor_source [FmtOther] [Registry] :
    (∀ (source : Identifier) (target : Identifier) (message : String),
        (RplPrivMsg source target message).Source = source)
    ∧ (∀ (source : Identifier) (newNick : String),
        (RplNick source newNick).Source = source)
    ∧ (∀ (channel : Channel) (source : Identifier) (message : String),
        (RplPrivMsgChannel channel source message).Source = source)
    ∧ (∀ (channel : Channel) (user : User),
        (RplJoin channel user).Source = user.toIdentifier)
    ∧ (∀ (channel : Channel) (user : User) (message : String),
        (RplPart channel user message).Source = user.toIdentifier)
    ∧ (∀ (server : Server),
        (RplPong server).Source = server.toIdentifier)
    ∧ (∀ (client : Client) (message : String),
        (RplQuit client message).Source = client.toIdentifier)
    ∧ (∀ (channel : Channel) (inviter : Client),
        (RplInviteMsg channel inviter).Source = inviter.toIdentifier)
    ∧ (∀ (source : Identifier) (client : Client),
        (RplWelcome source client).Source = source)
    ∧ (∀ (server : Server) (target : Client),
        (RplYourHost server target).Source = server.toIdentifier)
    ∧ (∀ (server : Server),
        (RplCreated server).Source = server.toIdentifier)
    ∧ (∀ (server : Server),
        (RplMyInfo server).Source = server.toIdentifier)
    ∧ (∀ (server : Server) (client : Client),
        (RplUModeIs server client).Source = server.toIdentifier)
    ∧ (∀ (channel : Channel),
        (RplNoTopic channel).Source = channel.server.toIdentifier)
    ∧ (∀ (channel : Channel),
        (RplTopic channel).Source = channel.server.toIdentifier)
    ∧ (∀ (channel : Channel) (invitee : Client),
        (RplInvitingMsg channel invitee).Source = channel.server.toIdentifier)
    ∧ (∀ (channel : Channel),
        (RplNamReply channel).Source = channel.server.toIdentifier)
    ∧ (∀ (source : Identifier),
        (RplEndOfNames source).Source = source)
    ∧ (∀ (server : Server),
        (RplYoureOper server).Source = server.toIdentifier)
    ∧ (∀ (source : Identifier),
        (ErrAlreadyRegistered source).Source = source)
    ∧ (∀ (source : Identifier) (nick : String),
        (ErrNickNameInUse source nick).Source = source)
    ∧ (∀ (source : Identifier) (command : String),
        (ErrUnknownCommand source command).Source = source)
    ∧ (∀ (source : Identifier),
        (ErrUsersDontMatch source).Source = source)
    ∧ (∀ (source : Identifier) (command : String),
        (ErrNeedMoreParams source command).Source = source)
    ∧ (∀ (source : Identifier) (channel : String),
        (ErrNoSuchChannel source channel).Source = source)
    ∧ (∀ (channel : Channel) (member : Client),
        (ErrUserOnChannel channel member).Source = channel.server.toIdentifier)
    ∧ (∀ (channel : Channel),
        (ErrNotOnChannel channel).Source = channel.server.toIdentifier)
    ∧ (∀ (channel : Channel),
        (ErrInviteOnlyChannel channel).Source = channel.server.toIdentifier)
    ∧ (∀ (channel : Channel),
        (ErrBadChannelKey channel).Source = channel.server.toIdentifier)
    ∧ (∀ (source : Identifier) (nick : String),
        (ErrNoSuchNick source nick).Source = source)
    ∧ (∀ (server : Server),
        (ErrPasswdMismatch server).Source = server.toIdentifier)
    ∧ (∀ (channel : Channel),
        (ErrNoChanModes channel).Source = channel.server.toIdentifier)
    ∧ (∀ (server : Server),
        (ErrNoPrivileges server).Source = server.toIdentifier)
    ∧ (∀ (server : Server),
        (ErrRestricted server).Source = server.toIdentifier) := by
  refine ⟨?_, ?_, ?_, ?_, ?_, ?_, ?_, ?_, ?_, ?_, ?_, ?_, ?_, ?_, ?_, ?_, ?_, ?_, ?_, ?_, ?_, ?_, ?_, ?_, ?_, ?_, ?_, ?_, ?_, ?_, ?_, ?_, ?_, ?_⟩ <;> intros <;> rfl

/-- C10: the payloads of `RplWelcome`, `RplYourHost` and `RplCreated` hold free
text with spaces and no parameter that begins with a colon, whereas the
payload of `ErrNeedMoreParams` marks its free text with one. -/
theorem C10_banner_payloads_lack_colon :
    (RplWelcome Example.ircLocal.toIdentifier Example.alice).message
        = "Welcome to the Internet Relay Network alice!a@h"
    ∧ marksTrailing (RplWelcome Example.ircLocal.toIdentifier Example.alice).message = false
    ∧ (RplYourHost Example.ircLocal Example.alice).message
        = "Your host is irc.local, running version ergonomadic-1"
    ∧ marksTrailing (RplYourHost Example.ircLocal Example.alice).message = false
    ∧ (RplCreated Example.ircLocal).message
        = "This server was created Mon, 02 Jan 2006 15:04:05 MST"
    ∧ marksTrailing (RplCreated Example.ircLocal).message = false
    ∧ marksTrailing (ErrNeedMoreParams Example.ircLocal.toIdentifier "PRIVMSG").message
        = true := by
  decide

/-- C11: `ErrInviteOnlyChannel(channel)` is a numeric reply with the invite-only
code and payload channel name + " :Cannot join channel (+i)";
`ErrBadChannelKey(channel)` is a numeric reply with the bad-key code and
payload channel name + " :Cannot join channel (+k)". -/
theorem C11_channel_join_errors [FmtOther] [Registry] (channel : Channel) :
    (∃ r : NumericReply, ErrInviteOnlyChannel channel = .numeric r
        ∧ r.code = ERR_INVITEONLYCHAN
        ∧ r.message = channel.name ++ " :Cannot join channel (+i)")
    ∧ (∃ r : NumericReply, ErrBadChannelKey channel = .numeric r
        ∧ r.code = ERR_BADCHANNELKEY
        ∧ r.message = channel.name ++ " :Cannot join channel (+k)") := by
  refine ⟨⟨_, rfl, rfl, ?_⟩, ⟨_, rfl, rfl, ?_⟩⟩
  · apply String.ext
    simp [NewNumericReply, Sprintf, doPrintf, doPrintfLoop, directive, scanFlags, printArg,
      fmtS, pad, truncateString, extraArgs]
  · apply String.ext
    simp [NewNumericReply, Sprintf, doPrintf, doPrintfLoop, directive, scanFlags, printArg,
      fmtS, pad, truncateString, extraArgs]

/-- The text rendered for a recipient depends on the recipient through the
nickname only. -/
theorem Reply.Format_eq_of_Nick_eq [FmtOther] (reply : Reply) (c1 c2 : Client)
    (h : c1.Nick = c2.Nick) : reply.Format c1 = reply.Format c2 := by
  cases reply with
  | string r => rfl
  | numeric r => simp [Reply.Format, NumericReply.Format, h]

/-! ## Tokens of a rendered line -/

/-- A piece without a space, followed by a space, is the first piece. -/
theorem splitSpaces_append (a b : List Char) (h : ' ' ∉ a) :
    splitSpaces (a ++ ' ' :: b) = a :: splitSpaces b := by
  induction a with
  | nil => simp [splitSpaces]
  | cons c cs ih =>
    simp at h
    have hc : c ≠ ' ' := Ne.symm h.1
    simp [splitSpaces, hc, ih h.2]

/-- A decimal digit is not a space. -/
theorem not_space_of_isDigit (l : List Char) (h : l.all Char.isDigit = true) : ' ' ∉ l := by
  intro hmem
  have := (List.all_eq_true.mp h) ' ' hmem
  exact absurd this (by decide)

/-- C13, as stated, fails: with code 1000 the code token is "1000"; with the
source id "my server" the third token is the code; with the recipient nickname
"a b" the third token is "a". -/
theorem C13_counterexample :
    token ((NewNumericReply Example.ircLocal.toIdentifier 1000 "x" []).Format Example.alice) 1
        = some "1000"
    ∧ token ((NewNumericReply ⟨"my server", "my server", "my server"⟩ 1 "x" []).Format
        Example.alice) 2 = some "001"
    ∧ token ((NewNumericReply Example.ircLocal.toIdentifier 1 "x" []).Format
        { Example.alice with Nick := "a b" }) 2 = some "a" := by
  decide

/-- C13, amended: for a numeric reply with a code from 0 to 999 and a source id
without a space, rendered for a recipient whose nickname has no space, the
second token of the line is the code as exactly three digits and the third
token is the recipient's nickname. -/
theorem C13_line_tokens [FmtOther] (reply : NumericReply) (client : Client)
    (h0 : 0 ≤ reply.code) (h1 : reply.code ≤ 999)
    (hsrc : ' ' ∉ reply.source.Id.data) (hnick : ' ' ∉ client.Nick.data) :
    token (reply.Format client) 0 = some (":" ++ reply.source.Id)
    ∧ token (reply.Format client) 1 = some (codeToken reply.code)
    ∧ isThreeDigits (codeToken reply.code) = true
    ∧ token (reply.Format client) 2 = some client.Nick := by
  obtain ⟨n, hn⟩ := Int.eq_ofNat_of_zero_le h0
  have h3 : isThreeDigits (codeToken reply.code) = true := by
    rw [hn]
    exact codeToken_threeDigits n (by omega)
  have hcode : ' ' ∉ (codeToken reply.code).data := by
    apply not_space_of_isDigit
    simp only [isThreeDigits, Bool.and_eq_true] at h3
    exact h3.2
  have hfirst : ' ' ∉ (':' :: reply.source.Id.data) := by
    simp only [List.mem_cons, not_or]
    exact ⟨by decide, hsrc⟩
  have hline : (reply.Format client).data
      = (':' :: reply.source.Id.data) ++ ' ' :: ((codeToken reply.code).data ++ ' '
          :: (client.Nick.data ++ ' ' :: reply.message.data)) := by
    rw [NumericReply.Format_eq]
    simp
  refine ⟨?_, ?_, h3, ?_⟩
  · simp only [token, hline, splitSpaces_append _ _ hfirst]
    show some (String.mk (':' :: reply.source.Id.data)) = some (":" ++ reply.source.Id)
    apply congrArg
    apply String.ext
    simp
  · simp only [token, hline, splitSpaces_append _ _ hfirst, splitSpaces_append _ _ hcode]
    rfl
  · simp only [token, hline, splitSpaces_append _ _ hfirst, splitSpaces_append _ _ hcode,
      splitSpaces_append _ _ hnick]
    rfl

/-- C13, amended, at the specification's example: source "irc.local", code 461,
recipient "alice". -/
theorem C13_line_tokens_witness :
    token ((NewNumericReply Example.ircLocal.toIdentifier 461 "x" []).Format Example.alice) 1
        = some "461"
    ∧ token ((NewNumericReply Example.ircLocal.toIdentifier 461 "x" []).Format Example.alice) 2
        = some "alice" :=
  have h := C13_line_tokens (NewNumericReply Example.ircLocal.toIdentifier 461 "x" [])
    Example.alice (by decide) (by decide) (by decide) (by decide)
  ⟨h.2.1.trans (by decide), h.2.2.2⟩

/-! ## Free text in messaging replies -/

/-- The template of the relays: an operand, then the free text after a colon. -/
theorem Sprintf_target_text [FmtOther] (a m : String) :
    Sprintf "%s :%s" [.str a, .str m] = a ++ " :" ++ m := by
  apply String.ext
  simp [Sprintf, doPrintf, doPrintfLoop, directive, scanFlags, printArg, fmtS, pad,
    truncateString, extraArgs]

/-- The template of `RplQuit`: the free text after a colon. -/
theorem Sprintf_colon_text [FmtOther] (m : String) : Sprintf ":%s" [.str m] = ":" ++ m := by
  apply String.ext
  simp [Sprintf, doPrintf, doPrintfLoop, directive, scanFlags, printArg, fmtS, pad,
    truncateString, extraArgs]

/-- C14: with the command names PRIVMSG, PART and QUIT, the four messaging
constructors that carry free text render it verbatim as the colon-prefixed
last parameter, for every message string. -/
theorem C14_free_text_relayed [FmtOther] [Registry] (hpriv : RPL_PRIVMSG = "PRIVMSG")
    (hpart : RPL_PART = "PART") (hquit : RPL_QUIT = "QUIT") (recipient : Client)
    (m : String) :
    (∀ source target : Identifier, (RplPrivMsg source target m).Format recipient
        = ":" ++ source.Id ++ " PRIVMSG " ++ target.Nick ++ " :" ++ m)
    ∧ (∀ (channel : Channel) (source : Identifier),
        (RplPrivMsgChannel channel source m).Format recipient
          = ":" ++ source.Id ++ " PRIVMSG " ++ channel.name ++ " :" ++ m)
    ∧ (∀ (channel : Channel) (user : User), (RplPart channel user m).Format recipient
        = ":" ++ user.Id ++ " PART " ++ channel.name ++ " :" ++ m)
    ∧ (∀ client : Client, (RplQuit client m).Format recipient
        = ":" ++ client.Id ++ " QUIT :" ++ m) := by
  refine ⟨?_, ?_, ?_, ?_⟩
  · intro source target
    simp [RplPrivMsg, Reply.Format, StringReply.Format, NewStringReply, Sprintf_stringLine,
      Sprintf_target_text, hpriv, String.append_assoc]
  · intro channel source
    simp [RplPrivMsgChannel, Reply.Format, StringReply.Format, NewStringReply,
      Sprintf_stringLine, Sprintf_target_text, hpriv, String.append_assoc]
  · intro channel user
    simp [RplPart, Reply.Format, StringReply.Format, NewStringReply, Sprintf_stringLine,
      Sprintf_target_text, hpart, String.append_assoc]
  · intro client
    have hq : " QUIT " ++ (":" ++ m) = " QUIT :" ++ m := by
      rw [← String.append_assoc]
      rfl
    simp [RplQuit, Reply.Format, StringReply.Format, NewStringReply, Sprintf_stringLine,
      Sprintf_colon_text, hquit, String.append_assoc, hq]

/-- C14 at a message with a space, a colon and a percent sign. -/
theorem C14_free_text_relayed_witness :
    (RplPrivMsg Example.bob.toIdentifier Example.alice.toIdentifier "100% sure: yes").Format
        Example.x = ":bob!b@h PRIVMSG alice :100% sure: yes"
    ∧ (RplQuit Example.alice "100% sure: yes").Format Example.x
        = ":alice!a@h QUIT :100% sure: yes" :=
  have h := C14_free_text_relayed rfl rfl rfl Example.x "100% sure: yes"
  ⟨(h.1 Example.bob.toIdentifier Example.alice.toIdentifier).trans (by decide),
   (h.2.2.2 Example.alice).trans (by decide)⟩

/-! ## The nickname slot of numeric replies -/

/-- C15, as stated, fails: the payload of `RplWelcome(source, client)` holds the
client id "alice!a@h", which contains the nickname "alice" of that same client;
the payloads of `RplNamReply` for a channel with member "alice", of
`RplInvitingMsg` for invitee "alice" and of `ErrUserOnChannel` for member
"alice" contain it too. -/
theorem C15_counterexample :
    (RplWelcome Example.ircLocal.toIdentifier Example.alice).message
        = "Welcome to the Internet Relay Network " ++ Example.alice.Nick ++ "!a@h"
    ∧ (RplNamReply (Example.channel "#go" ["alice", "bob"])).message
        = "= #go :" ++ Example.alice.Nick ++ " bob"
    ∧ (RplInvitingMsg (Example.channel "#go" []) Example.alice).message
        = "#go " ++ Example.alice.Nick
    ∧ (ErrUserOnChannel (Example.channel "#go" []) Example.alice).message
        = Example.alice.Nick ++ " #go :is already on channel" := by
  decide

/-- C15, amended: every numeric catalog constructor returns a reply of the
numeric shape. Four payloads hold text that can be the recipient's nickname:
`RplWelcome` the client id, `RplInvitingMsg` the invitee's `Nick()`,
`RplNamReply` the member nicknames, `ErrUserOnChannel` the member's `nick`.
The payload of every other numeric constructor does not depend on a nickname:
it stays the same when `Nick()`, `nick` and `Nicks()` of the entities passed
are replaced. A numeric reply renders for every recipient as one text that
does not vary with the recipient, then the recipient's nickname, a space, and
the stored payload. -/
theorem C15_nickname_only_in_slot [FmtOther] [Registry] :
    (∀ (source : Identifier) (client : Client),
        (RplWelcome source client).isNumeric = true
        ∧ (RplWelcome source client).message
          = "Welcome to the Internet Relay Network " ++ client.Id)
    ∧ (∀ (server : Server) (target : Client) (serverNick targetNick targetField : String),
        (RplYourHost server target).isNumeric = true
        ∧ (RplYourHost (server.withNick serverNick) (target.withNick targetNick targetField)).message
          = (RplYourHost server target).message)
    ∧ (∀ (server : Server) (serverNick : String),
        (RplCreated server).isNumeric = true
        ∧ (RplCreated (server.withNick serverNick)).message
          = (RplCreated server).message)
    ∧ (∀ (server : Server) (serverNick : String),
        (RplMyInfo server).isNumeric = true
        ∧ (RplMyInfo (server.withNick serverNick)).message
          = (RplMyInfo server).message)
    ∧ (∀ (server : Server) (client : Client) (serverNick clientNick clientField : String),
        (RplUModeIs server client).isNumeric = true
        ∧ (RplUModeIs (server.withNick serverNick) (client.withNick clientNick clientField)).message
          = (RplUModeIs server client).message)
    ∧ (∀ (channel : Channel) (serverNick : String) (members : List String),
        (RplNoTopic channel).isNumeric = true
        ∧ (RplNoTopic (channel.withNicks serverNick members)).message
          = (RplNoTopic channel).message)
    ∧ (∀ (channel : Channel) (serverNick : String) (members : List String),
        (RplTopic channel).isNumeric = true
        ∧ (RplTopic (channel.withNicks serverNick members)).message
          = (RplTopic channel).message)
    ∧ (∀ (channel : Channel) (invitee : Client),
        (RplInvitingMsg channel invitee).isNumeric = true
        ∧ (RplInvitingMsg channel invitee).message
          = channel.name ++ " " ++ invitee.Nick)
    ∧ (∀ (channel : Channel),
        (RplNamReply channel).isNumeric = true
        ∧ (RplNamReply channel).message
          = "= " ++ channel.name ++ " :" ++ " ".intercalate channel.Nicks)
    ∧ (∀ (source : Identifier) (sourceNick : String),
        (RplEndOfNames source).isNumeric = true
        ∧ (RplEndOfNames (source.withNick sourceNick)).message
          = (RplEndOfNames source).message)
    ∧ (∀ (server : Server) (serverNick : String),
        (RplYoureOper server).isNumeric = true
        ∧ (RplYoureOper (server.withNick serverNick)).message
          = (RplYoureOper server).message)
    ∧ (∀ (source : Identifier) (sourceNick : String),
        (ErrAlreadyRegistered source).isNumeric = true
        ∧ (ErrAlreadyRegistered (source.withNick sourceNick)).message
          = (ErrAlreadyRegistered source).message)
    ∧ (∀ (source : Identifier) (nick : String) (sourceNick : String),
        (ErrNickNameInUse source nick).isNumeric = true
        ∧ (ErrNickNameInUse (source.withNick sourceNick) nick).message
          = (ErrNickNameInUse source nick).message)
    ∧ (∀ (source : Identifier) (command : String) (sourceNick : String),
        (ErrUnknownCommand source command).isNumeric = true
        ∧ (ErrUnknownCommand (source.withNick sourceNick) command).message
          = (ErrUnknownCommand source command).message)
    ∧ (∀ (source : Identifier) (sourceNick : String),
        (ErrUsersDontMatch source).isNumeric = true
        ∧ (ErrUsersDontMatch (source.withNick sourceNick)).message
          = (ErrUsersDontMatch source).message)
    ∧ (∀ (source : Identifier) (command : String) (sourceNick : String),
        (ErrNeedMoreParams source command).isNumeric = true
        ∧ (ErrNeedMoreParams (source.withNick sourceNick) command).message
          = (ErrNeedMoreParams source command).message)
    ∧ (∀ (source : Identifier) (channel : String) (sourceNick : String),
        (ErrNoSuchChannel source channel).isNumeric = true
        ∧ (ErrNoSuchChannel (source.withNick sourceNick) channel).message
          = (ErrNoSuchChannel source channel).message)
    ∧ (∀ (channel : Channel) (member : Client),
        (ErrUserOnChannel channel member).isNumeric = true
        ∧ (ErrUserOnChannel channel member).message
          = member.nick ++ " " ++ channel.name ++ " :is already on channel")
    ∧ (∀ (channel : Channel) (serverNick : String) (members : List String),
        (ErrNotOnChannel channel).isNumeric = true
        ∧ (ErrNotOnChannel (channel.withNicks serverNick members)).message
          = (ErrNotOnChannel channel).message)
    ∧ (∀ (channel : Channel) (serverNick : String) (members : List String),
        (ErrInviteOnlyChannel channel).isNumeric = true
        ∧ (ErrInviteOnlyChannel (channel.withNicks serverNick members)).message
          = (ErrInviteOnlyChannel channel).message)
    ∧ (∀ (channel : Channel) (serverNick : String) (members : List String),
        (ErrBadChannelKey channel).isNumeric = true
        ∧ (ErrBadChannelKey (channel.withNicks serverNick members)).message
          = (ErrBadChannelKey channel).message)
    ∧ (∀ (source : Identifier) (nick : String) (sourceNick : String),
        (ErrNoSuchNick source nick).isNumeric = true
        ∧ (ErrNoSuchNick (source.withNick sourceNick) nick).message
          = (ErrNoSuchNick source nick).message)
    ∧ (∀ (server : Server) (serverNick : String),
        (ErrPasswdMismatch server).isNumeric = true
        ∧ (ErrPasswdMismatch (server.withNick serverNick)).message
          = (ErrPasswdMismatch server).message)
    ∧ (∀ (channel : Channel) (serverNick : String) (members : List String),
        (ErrNoChanModes channel).isNumeric = true
        ∧ (ErrNoChanModes (channel.withNicks serverNick members)).message
          = (ErrNoChanModes channel).message)
    ∧ (∀ (server : Server) (serverNick : String),
        (ErrNoPrivileges server).isNumeric = true
        ∧ (ErrNoPrivileges (server.withNick serverNick)).message
          = (ErrNoPrivileges server).message)
    ∧ (∀ (server : Server) (serverNick : String),
        (ErrRestricted server).isNumeric = true
        ∧ (ErrRestricted (server.withNick serverNick)).message
          = (ErrRestricted server).message)
    ∧ (∀ reply : NumericReply, ∃ pre : String, ∀ recipient : Client,
        reply.Format recipient = pre ++ recipient.Nick ++ " " ++ reply.message) := by
  refine ⟨?_, ?_, ?_, ?_, ?_, ?_, ?_, ?_, ?_, ?_, ?_, ?_, ?_, ?_, ?_, ?_, ?_, ?_, ?_, ?_, ?_, ?_, ?_, ?_, ?_, ?_, ?_⟩
  all_goals first
    | (intros; exact ⟨rfl, rfl⟩)
    | (intros
       refine ⟨rfl, ?_⟩
       apply String.ext
       simp [RplWelcome, RplInvitingMsg, RplNamReply, ErrUserOnChannel, Reply.message,
         NewNumericReply, Sprintf, doPrintf, doPrintfLoop, directive, scanFlags, printArg,
         fmtS, pad, truncateString, extraArgs, Join_eq_intercalate])
    | (intro reply
       refine ⟨":" ++ reply.source.Id ++ " " ++ codeToken reply.code ++ " ", ?_⟩
       intro recipient
       rw [NumericReply.Format_eq])

/-! ## The value of the code token -/

/-- Reading digits from a starting value shifts that value by the digits read. -/
theorem foldl_digits_shift (l : List Char) (acc : Nat) :
    l.foldl (fun a c => a * 10 + (c.toNat - '0'.toNat)) acc
      = acc * 10 ^ l.length + l.foldl (fun a c => a * 10 + (c.toNat - '0'.toNat)) 0 := by
  induction l generalizing acc with
  | nil => simp
  | cons c l ih =>
    simp only [List.foldl_cons, List.length_cons]
    rw [ih (acc * 10 + (c.toNat - '0'.toNat)), ih (0 * 10 + (c.toNat - '0'.toNat))]
    ring

/-- The digit character of a value below ten denotes that value. -/
theorem digitChar_toNat (d : Nat) (h : d < 10) :
    (Nat.digitChar d).toNat - '0'.toNat = d := by
  interval_cases d <;> decide

/-- The digits written by the digit loop denote the value, in front of the
digits already written. -/
theorem decimalLoop_value (fuel u : Nat) (acc : List Char) (h : u < fuel) :
    (decimalLoop fuel u acc).foldl (fun a c => a * 10 + (c.toNat - '0'.toNat)) 0
      = u * 10 ^ acc.length
        + acc.foldl (fun a c => a * 10 + (c.toNat - '0'.toNat)) 0 := by
  induction fuel generalizing u acc with
  | zero => omega
  | succ fuel ih =>
    simp only [decimalLoop]
    by_cases h10 : 10 ≤ u
    · simp only [h10, if_true]
      rw [ih (u / 10) _ (by omega)]
      simp only [List.foldl_cons, List.length_cons]
      rw [foldl_digits_shift acc, digitChar_toNat _ (Nat.mod_lt _ (by decide))]
      have hu : u = u / 10 * 10 + u % 10 := by omega
      generalize u / 10 = q at hu ⊢
      generalize u % 10 = r at hu ⊢
      subst hu
      ring
    · simp only [h10, if_false, List.foldl_cons]
      rw [foldl_digits_shift acc, digitChar_toNat _ (by omega)]
      ring

/-- Zeros in front do not change the value. -/
theorem foldl_digits_zeros (k : Nat) (l : List Char) :
    (List.replicate k '0' ++ l).foldl (fun a c => a * 10 + (c.toNat - '0'.toNat)) 0
      = l.foldl (fun a c => a * 10 + (c.toNat - '0'.toNat)) 0 := by
  induction k with
  | zero => simp
  | succ k ih =>
    simp only [List.replicate_succ, List.cons_append, List.foldl_cons]
    exact ih

/-- The code token of a code that is not negative denotes the code. -/
theorem decimalValue_codeToken (n : Nat) : decimalValue (codeToken (n : Int)) = n := by
  have hd : (codeToken (n : Int)).data
      = List.replicate (3 - (Nat.repr n).length) '0' ++ decimal n := by
    rw [codeToken_nat, decimal_eq_repr]
    simp [zeroPad3]
  simp only [decimalValue, hd, foldl_digits_zeros, decimal]
  rw [decimalLoop_value _ _ _ (by omega)]
  simp

/-- C16: for a code from 0 to 999 the code token written by
`NumericReply.Format` has length 3, consists of decimal digits and denotes the
code; replies with different codes in that range have different tokens. -/
theorem C16_code_token_denotes_code [FmtOther] (code : Int) (h0 : 0 ≤ code)
    (h1 : code ≤ 999) :
    (codeToken code).data.length = 3
    ∧ (∀ c ∈ (codeToken code).data, c.isDigit = true)
    ∧ (decimalValue (codeToken code) : Int) = code
    ∧ (∀ other : Int, 0 ≤ other → other ≤ 999 → other ≠ code →
        codeToken other ≠ codeToken code)
    ∧ (∀ (reply : NumericReply) (client : Client), reply.code = code →
        reply.Format client = ":" ++ reply.source.Id ++ " " ++ codeToken code ++ " "
          ++ client.Nick ++ " " ++ reply.message) := by
  obtain ⟨n, rfl⟩ := Int.eq_ofNat_of_zero_le h0
  have h3 := codeToken_threeDigits n (by omega)
  simp only [isThreeDigits, Bool.and_eq_true, beq_iff_eq, List.all_eq_true] at h3
  refine ⟨h3.1, h3.2, ?_, ?_, ?_⟩
  · rw [decimalValue_codeToken]
  · intro other ho _ hne heq
    obtain ⟨m, rfl⟩ := Int.eq_ofNat_of_zero_le ho
    have := congrArg decimalValue heq
    rw [decimalValue_codeToken, decimalValue_codeToken] at this
    exact hne (by rw [this])
  · intro reply client hc
    rw [NumericReply.Format_eq, hc]

/-- C16 at code 7: the token is "007" and denotes 7. -/
theorem C16_code_token_denotes_code_witness :
    codeToken 7 = "007" ∧ (decimalValue (codeToken 7) : Int) = 7 :=
  ⟨by decide, (C16_code_token_denotes_code 7 (by decide) (by decide)).2.2.1⟩

/-! ## Entity text used as the template -/

/-- C17: the constructors that pass entity text as the template, with no
operands, produce that text as the payload whenever it has no `%`: `RplNick`
with the new nickname (rendering as ":" + source id + " NICK " + new nickname
when the command name is NICK), `RplInviteMsg` with the channel name, `RplPong`
with the server id and `RplUModeIs` with the user-mode string. -/
theorem C17_plain_text_templates [FmtOther] [Registry] (recipient : Client) :
    (∀ (source : Identifier) (newNick : String), '%' ∉ newNick.data →
        (RplNick source newNick).Format recipient
          = ":" ++ source.Id ++ " " ++ RPL_NICK ++ " " ++ newNick)
    ∧ (∀ (source : Identifier) (newNick : String), '%' ∉ newNick.data →
        RPL_NICK = "NICK" →
        (RplNick source newNick).Format recipient = ":" ++ source.Id ++ " NICK " ++ newNick)
    ∧ (∀ (channel : Channel) (inviter : Client), '%' ∉ channel.name.data →
        (RplInviteMsg channel inviter).Format recipient
          = ":" ++ inviter.Id ++ " " ++ RPL_INVITE ++ " " ++ channel.name)
    ∧ (∀ server : Server, '%' ∉ server.Id.data →
        (RplPong server).Format recipient
          = ":" ++ server.Id ++ " " ++ RPL_PONG ++ " " ++ server.Id)
    ∧ (∀ (server : Server) (client : Client), '%' ∉ client.UModeString.data →
        (RplUModeIs server client).message = client.UModeString) := by
  refine ⟨?_, ?_, ?_, ?_, ?_⟩
  · intro source newNick h
    simp [RplNick, Reply.Format, StringReply.Format, NewStringReply, Sprintf_stringLine,
      Sprintf_plain _ h]
  · intro source newNick h hcode
    simp [RplNick, Reply.Format, StringReply.Format, NewStringReply, Sprintf_stringLine,
      Sprintf_plain _ h, hcode, String.append_assoc]
  · intro channel inviter h
    simp [RplInviteMsg, Reply.Format, StringReply.Format, NewStringReply, Sprintf_stringLine,
      Sprintf_plain _ h]
  · intro server h
    simp [RplPong, Reply.Format, StringReply.Format, NewStringReply, Sprintf_stringLine,
      Sprintf_plain _ h]
  · intro server client h
    simp [RplUModeIs, Reply.message, NewNumericReply, Sprintf_plain _ h]

/-- C17 at the new nickname "carol" announced by `bob!b@h`. -/
theorem C17_plain_text_templates_witness :
    '%' ∉ "carol".data
    ∧ (RplNick Example.bob.toIdentifier "carol").Format Example.alice = ":bob!b@h NICK carol" :=
  ⟨by decide,
   ((C17_plain_text_templates Example.alice).2.1 Example.bob.toIdentifier "carol" (by decide)
      rfl).trans (by decide)⟩

end Irc
